import Mathlib

/-!
Shallow embedding of the q-drift analyzer (src/main.py) and verification of
its specification claims.

The Python module defines a biased coin-flip generator
(`quantum_gate_simulation`), two statistics over a list of binary outcomes
(`calculate_entropy`, `calculate_collapse_bias`), and a CLI command `analyze`
that validates its arguments, optionally seeds the global random source,
generates outcomes, classifies the entropy into a status tier, optionally
exports a JSON report, and exits.

Modelling choices:
* Python floats are modelled as exact rationals (`ℚ`) for the probability
  arithmetic and as reals (`ℝ`) where `math.log2` appears.
* The process-wide random source (`random`) is modelled as an explicit
  stream of draws `RandState := ℕ → ℚ`; `random.seed s` replaces the stream
  by `mt s`, where `mt : ℤ → RandState` abstracts the seeded Mersenne
  Twister of Python's standard library.
* Console rendering is not modelled except for the error messages the
  `analyze` command prints before aborting, which are recorded as events.
* The file-system write of the JSON export either succeeds or raises
  `IOError`; this is modelled by a boolean `writeOk` input.
-/

namespace QDrift

/-- The state of the process-wide random source: the stream of future
`random.random()` draws, each expected to lie in `[0, 1)`. -/
def RandState : Type := ℕ → ℚ

/-- Consume one draw from the random source. -/
def draw (g : RandState) : ℚ × RandState := (g 0, fun n => g (n + 1))

/-- The clamped effective probability computed inside
`quantum_gate_simulation`: `max(0.0, min(1.0, 0.9 * (1.0 - noise_level)))`. -/
def shifted_probability (noise_level : ℚ) : ℚ :=
  max 0 (min 1 (0.9 * (1 - noise_level)))

/-- `quantum_gate_simulation` from src/main.py, with the single random draw
`r` passed explicitly: returns `1` if `r < shifted_probability`, else `0`. -/
def quantum_gate_simulation (noise_level : ℚ) (r : ℚ) : ℤ :=
  if r < shifted_probability noise_level then 1 else 0

/-- One generator step threading the random source. -/
def qgs_step (noise_level : ℚ) (g : RandState) : ℤ × RandState :=
  let p := draw g
  (quantum_gate_simulation noise_level p.1, p.2)

/-- `[quantum_gate_simulation(noise) for _ in range(n)]`, threading the
random source through the `n` sequential draws. -/
def gen_results : ℕ → ℚ → RandState → List ℤ × RandState
  | 0, _, g => ([], g)
  | n + 1, noise, g =>
    let s := qgs_step noise g
    let rest := gen_results n noise s.2
    (s.1 :: rest.1, rest.2)

/-- `calculate_entropy` from src/main.py: Shannon entropy in bits of the
empirical distribution of the values occurring in `states`.  `Counter`
iterates over the distinct values present, i.e. `states.toFinset`; each
contributes `-p * log2 p` with `p = count / total`. -/
noncomputable def calculate_entropy (states : List ℤ) : ℝ :=
  if states.length = 0 then 0
  else ∑ v ∈ states.toFinset,
    -(((states.count v : ℝ) / states.length) *
      Real.logb 2 ((states.count v : ℝ) / states.length))

/-- `calculate_collapse_bias` from src/main.py:
`abs(states.count(1) / total - 0.5)`, and `0` for the empty list. -/
def calculate_collapse_bias (states : List ℤ) : ℚ :=
  if states.length = 0 then 0
  else |(states.count 1 : ℚ) / states.length - 0.5|

/-- The status tier derived from entropy in the `analyze` command. -/
inductive Status
  | STABLE
  | WARNING
  | CRITICAL
deriving DecidableEq

/-- The `status_msg` string set in each classification branch. -/
def status_message : Status → String
  | .CRITICAL => "CRITICAL: High structural fragility detected."
  | .WARNING => "WARNING: Moderate drift detected."
  | .STABLE => "STABLE: System appears robust."

open Classical in
/-- The `if entropy > 0.8 / elif entropy > 0.4 / else` chain of the
`analyze` command, as a function of the entropy value alone. -/
noncomputable def classify (entropy : ℝ) : Status :=
  if entropy > 0.8 then .CRITICAL
  else if entropy > 0.4 then .WARNING
  else .STABLE

/-- The arguments of the `analyze` command that the core logic reads. -/
structure RunConfig where
  simulations : ℤ
  noise : ℚ
  seed : Option ℤ
  output : Option String
  graph : Bool
  ci_mode : Bool

/-- The dictionary serialized to the JSON export file. -/
structure ReportJson where
  simulations : ℤ
  noise_level : ℚ
  seed : Option ℤ
  entropy : ℝ
  bias : ℚ
  dist_fail : ℕ
  dist_pass : ℕ
  status : String

/-- Observable effects of one `analyze` run, in program order. -/
inductive Event
  | errorPrinted (msg : String)
  | reportWritten (data : ReportJson)
  | saveFailed
  | exited (code : ℤ)

/-- The generated sequence and the metrics derived from it. -/
structure RunStats where
  outcomes : List ℤ
  entropy : ℝ
  bias : ℚ
  status : Status

/-- The complete observable result of one `analyze` run. -/
structure AnalyzeResult where
  events : List Event
  stats : Option RunStats
  finalRand : RandState
  exitCode : ℤ

/-- The state of the random source after the optional `random.seed(seed)`
call at the top of `analyze`: re-seeded when a seed is supplied, the
ambient state otherwise. -/
def seededState (mt : ℤ → RandState) (g : RandState) : Option ℤ → RandState
  | some s => mt s
  | none => g

/-- The `analyze` command from src/main.py.  `mt s` is the random stream
obtained by `random.seed(s)`; `writeOk` tells whether the JSON export write
succeeds; `g` is the ambient state of the random source on entry.  Mirrors
the source order: seed first, then validation of `simulations` and `noise`,
then generation, metrics, classification, optional export, final exit. -/
noncomputable def analyze (mt : ℤ → RandState) (writeOk : Bool)
    (g : RandState) (cfg : RunConfig) : AnalyzeResult :=
  let g1 : RandState := seededState mt g cfg.seed
  if cfg.simulations ≤ 0 then
    { events := [.errorPrinted "❌ Simulations must be > 0", .exited 1],
      stats := none, finalRand := g1, exitCode := 1 }
  else if ¬ (0 ≤ cfg.noise ∧ cfg.noise ≤ 1) then
    { events := [.errorPrinted "❌ Noise must be between 0.0 and 1.0", .exited 1],
      stats := none, finalRand := g1, exitCode := 1 }
  else
    let gen := gen_results cfg.simulations.toNat cfg.noise g1
    let results := gen.1
    let g2 := gen.2
    let entropy := calculate_entropy results
    let bias := calculate_collapse_bias results
    let st := classify entropy
    let code : ℤ := if st = .CRITICAL then 1 else 0
    let stats : RunStats :=
      { outcomes := results, entropy := entropy, bias := bias, status := st }
    let data : ReportJson :=
      { simulations := cfg.simulations, noise_level := cfg.noise,
        seed := cfg.seed, entropy := entropy, bias := bias,
        dist_fail := results.count 0, dist_pass := results.count 1,
        status := status_message st }
    match cfg.output with
    | none =>
      { events := if code = 0 then [] else [.exited code],
        stats := some stats, finalRand := g2, exitCode := code }
    | some _ =>
      if writeOk then
        { events :=
            if code = 0 then [.reportWritten data]
            else [.reportWritten data, .exited code],
          stats := some stats, finalRand := g2, exitCode := code }
      else
        { events := [.saveFailed, .exited 1],
          stats := some stats, finalRand := g2, exitCode := 1 }

/-! ## Claim C1 -/

/-- C1: `quantum_gate_simulation` always returns `0` or `1`; it returns `1`
exactly when the draw is below `clamp(0.9 * (1 - noise), 0, 1)`; for
`noise = 1` the effective probability is `0` and every draw `r ≥ 0` yields
`0`; for `noise = 0` the effective probability is exactly `0.9`. -/
theorem C1_qgs_range_and_edges (noise r : ℚ) (hr : 0 ≤ r) :
    (quantum_gate_simulation noise r = 0 ∨ quantum_gate_simulation noise r = 1) ∧
    (quantum_gate_simulation noise r = 1 ↔ r < shifted_probability noise) ∧
    shifted_probability 1 = 0 ∧
    quantum_gate_simulation 1 r = 0 ∧
    shifted_probability 0 = 0.9 := by
  have h1 : shifted_probability 1 = 0 := by
    simp [shifted_probability]
  refine ⟨?_, ?_, h1, ?_, ?_⟩
  · unfold quantum_gate_simulation
    by_cases h : r < shifted_probability noise <;> simp [h]
  · unfold quantum_gate_simulation
    by_cases h : r < shifted_probability noise <;> simp [h]
  · unfold quantum_gate_simulation
    rw [h1]
    simp [not_lt.mpr hr]
  · simp [shifted_probability]
    norm_num

/-- Witness for C1 at `noise = 1/3`, `r = 1/2`. -/
theorem C1_witness :
    (quantum_gate_simulation (1/3) (1/2) = 0 ∨
      quantum_gate_simulation (1/3) (1/2) = 1) ∧
    (quantum_gate_simulation (1/3) (1/2) = 1 ↔
      (1/2 : ℚ) < shifted_probability (1/3)) ∧
    shifted_probability 1 = 0 ∧
    quantum_gate_simulation 1 (1/2) = 0 ∧
    shifted_probability 0 = 0.9 :=
  C1_qgs_range_and_edges (1/3) (1/2) (by norm_num)

/-! ## Claim C9 -/

/-- C9: under the validated precondition `0 ≤ noise ≤ 1`, the product
`0.9 * (1 - noise)` already lies in `[0, 1]`, the clamp is the identity on
it, and removing the clamp changes no result of `quantum_gate_simulation`. -/
theorem C9_clamp_redundant (noise : ℚ) (h0 : 0 ≤ noise) (h1 : noise ≤ 1) :
    0 ≤ 0.9 * (1 - noise) ∧ 0.9 * (1 - noise) ≤ 1 ∧
    shifted_probability noise = 0.9 * (1 - noise) ∧
    ∀ r : ℚ, quantum_gate_simulation noise r =
      if r < 0.9 * (1 - noise) then 1 else 0 := by
  have hlo : 0 ≤ (0.9 : ℚ) * (1 - noise) := by nlinarith
  have hhi : (0.9 : ℚ) * (1 - noise) ≤ 1 := by nlinarith
  have hid : shifted_probability noise = 0.9 * (1 - noise) := by
    unfold shifted_probability
    rw [min_eq_right hhi, max_eq_right hlo]
  exact ⟨hlo, hhi, hid, fun r => by rw [quantum_gate_simulation, hid]⟩

/-- Witness for C9 at `noise = 1/2`. -/
theorem C9_witness :
    0 ≤ (0.9 : ℚ) * (1 - 1/2) ∧ (0.9 : ℚ) * (1 - 1/2) ≤ 1 ∧
    shifted_probability (1/2) = 0.9 * (1 - 1/2) ∧
    ∀ r : ℚ, quantum_gate_simulation (1/2) r =
      if r < 0.9 * (1 - 1/2) then 1 else 0 :=
  C9_clamp_redundant (1/2) (by norm_num) (by norm_num)

/-! ## Metric helper lemmas -/

/-- In a binary list the counts of `0` and `1` add up to the length. -/
lemma count_zero_add_count_one {s : List ℤ} (hb : ∀ x ∈ s, x = 0 ∨ x = 1) :
    s.count 0 + s.count 1 = s.length := by
  induction s with
  | nil => simp
  | cons a t ih =>
    have ht : ∀ x ∈ t, x = 0 ∨ x = 1 := fun x hx => hb x (List.mem_cons_of_mem a hx)
    have ih2 := ih ht
    rcases hb a (List.mem_cons_self a t) with rfl | rfl <;>
      simp [List.count_cons] <;> omega

/-- The distinct values of a constant list. -/
lemma toFinset_of_const {s : List ℤ} {v : ℤ} (hne : s ≠ [])
    (hall : ∀ x ∈ s, x = v) : s.toFinset = {v} := by
  have hv : v ∈ s := by
    cases s with
    | nil => exact absurd rfl hne
    | cons a t =>
      rw [← hall a (List.mem_cons_self a t)]
      exact List.mem_cons_self a t
  ext x
  simp only [List.mem_toFinset, Finset.mem_singleton]
  exact ⟨fun hx => hall x hx, fun hx => hx ▸ hv⟩

/-- The distinct values of a binary list containing both values. -/
lemma toFinset_binary {s : List ℤ} (hb : ∀ x ∈ s, x = 0 ∨ x = 1)
    (h0 : (0 : ℤ) ∈ s) (h1 : (1 : ℤ) ∈ s) : s.toFinset = {0, 1} := by
  ext x
  simp only [List.mem_toFinset, Finset.mem_insert, Finset.mem_singleton]
  exact ⟨fun hx => hb x hx, by rintro (rfl | rfl) <;> assumption⟩

/-- Entropy of a nonempty constant list is `0`. -/
lemma calculate_entropy_const {s : List ℤ} {v : ℤ} (hne : s ≠ [])
    (hall : ∀ x ∈ s, x = v) : calculate_entropy s = 0 := by
  have hlen : s.length ≠ 0 := by simpa [List.length_eq_zero] using hne
  unfold calculate_entropy
  rw [if_neg hlen, toFinset_of_const hne hall, Finset.sum_singleton]
  rw [List.count_eq_length.mpr fun b hbs => (hall b hbs).symm]
  rw [div_self (Nat.cast_ne_zero.mpr hlen), Real.logb_one]
  ring

/-- Entropy of a nonempty binary list with equal counts is exactly `1`. -/
lemma calculate_entropy_balanced {s : List ℤ} (hne : s ≠ [])
    (hb : ∀ x ∈ s, x = 0 ∨ x = 1) (hcc : s.count 0 = s.count 1) :
    calculate_entropy s = 1 := by
  have hlen : s.length ≠ 0 := by simpa [List.length_eq_zero] using hne
  have hsum : s.count 0 + s.count 1 = s.length := count_zero_add_count_one hb
  have hpos0 : 0 < s.count 0 := by omega
  have hpos1 : 0 < s.count 1 := by omega
  have hts : s.toFinset = {0, 1} :=
    toFinset_binary hb (List.count_pos_iff.mp hpos0) (List.count_pos_iff.mp hpos1)
  unfold calculate_entropy
  rw [if_neg hlen, hts, Finset.sum_pair (by decide : (0 : ℤ) ≠ 1)]
  have hlq : (s.length : ℝ) = 2 * (s.count 0 : ℝ) := by
    exact_mod_cast (by omega : s.length = 2 * s.count 0)
  have hc0 : (0 : ℝ) < (s.count 0 : ℝ) := by exact_mod_cast hpos0
  have hhalf0 : (s.count 0 : ℝ) / (s.length : ℝ) = 1 / 2 := by
    rw [hlq, div_eq_div_iff (by positivity) (by norm_num)]
    ring
  have hhalf1 : (s.count 1 : ℝ) / (s.length : ℝ) = 1 / 2 := by
    rw [show s.count 1 = s.count 0 from hcc.symm]
    exact hhalf0
  rw [hhalf0, hhalf1]
  have hlog : Real.logb 2 (1 / 2 : ℝ) = -1 := by
    rw [show (1 / 2 : ℝ) = 2⁻¹ by norm_num, Real.logb_inv,
      Real.logb_self_eq_one (by norm_num : (1 : ℝ) < 2)]
  rw [hlog]
  norm_num

/-- Bias of a nonempty binary list with equal counts is exactly `0`. -/
lemma calculate_collapse_bias_balanced {s : List ℤ} (hne : s ≠ [])
    (hb : ∀ x ∈ s, x = 0 ∨ x = 1) (hcc : s.count 0 = s.count 1) :
    calculate_collapse_bias s = 0 := by
  have hlen : s.length ≠ 0 := by simpa [List.length_eq_zero] using hne
  have hsum : s.count 0 + s.count 1 = s.length := count_zero_add_count_one hb
  unfold calculate_collapse_bias
  rw [if_neg hlen]
  have hlq : (s.length : ℚ) = 2 * (s.count 1 : ℚ) := by
    exact_mod_cast (by omega : s.length = 2 * s.count 1)
  have hc1 : (0 : ℚ) < (s.count 1 : ℚ) := by
    exact_mod_cast (by omega : 0 < s.count 1)
  have : (s.count 1 : ℚ) / (s.length : ℚ) = 1 / 2 := by
    rw [hlq, div_eq_div_iff (by positivity) (by norm_num)]
    ring
  rw [this]
  norm_num

/-- Bias of a nonempty all-`0` list is exactly `1/2`. -/
lemma calculate_collapse_bias_all_zero {s : List ℤ} (hne : s ≠ [])
    (hall : ∀ x ∈ s, x = 0) : calculate_collapse_bias s = 0.5 := by
  have hlen : s.length ≠ 0 := by simpa [List.length_eq_zero] using hne
  have hc : s.count 1 = 0 :=
    List.count_eq_zero.mpr fun h => by simpa using hall 1 h
  unfold calculate_collapse_bias
  rw [if_neg hlen, hc]
  norm_num

/-- Bias of a nonempty all-`1` list is exactly `1/2`. -/
lemma calculate_collapse_bias_all_one {s : List ℤ} (hne : s ≠ [])
    (hall : ∀ x ∈ s, x = 1) : calculate_collapse_bias s = 0.5 := by
  have hlen : s.length ≠ 0 := by simpa [List.length_eq_zero] using hne
  have hc : s.count 1 = s.length :=
    List.count_eq_length.mpr fun b hbs => (hall b hbs).symm
  unfold calculate_collapse_bias
  rw [if_neg hlen, hc, div_self (Nat.cast_ne_zero.mpr hlen)]
  norm_num

/-- Entropy is never negative, for any list. -/
lemma calculate_entropy_nonneg (s : List ℤ) : 0 ≤ calculate_entropy s := by
  unfold calculate_entropy
  split_ifs with h
  · exact le_refl 0
  · apply Finset.sum_nonneg
    intro v hv
    have hvm : v ∈ s := List.mem_toFinset.mp hv
    have hc : 0 < s.count v := List.count_pos_iff.mpr hvm
    have hl : 0 < s.length := by omega
    have hlr : (0 : ℝ) < (s.length : ℝ) := by exact_mod_cast hl
    have hp0 : 0 ≤ (s.count v : ℝ) / (s.length : ℝ) := by positivity
    have hp1 : (s.count v : ℝ) / (s.length : ℝ) ≤ 1 := by
      rw [div_le_one hlr]
      exact_mod_cast List.count_le_length v s
    have hlog : Real.logb 2 ((s.count v : ℝ) / (s.length : ℝ)) ≤ 0 :=
      Real.logb_nonpos (by norm_num : (1 : ℝ) < 2) hp0 hp1
    nlinarith

/-- The binary-entropy pair bound: `-(p log2 p) - ((1-p) log2 (1-p)) ≤ 1`. -/
lemma logb_pair_le_one (p : ℝ) :
    -(p * Real.logb 2 p) + -((1 - p) * Real.logb 2 (1 - p)) ≤ 1 := by
  have h2 : (0 : ℝ) < Real.log 2 := Real.log_pos (by norm_num)
  have hE : Real.binEntropy p ≤ Real.log 2 := Real.binEntropy_le_log_two
  have hEq : -(p * Real.logb 2 p) + -((1 - p) * Real.logb 2 (1 - p))
      = Real.binEntropy p / Real.log 2 := by
    rw [Real.binEntropy, Real.log_inv, Real.log_inv]
    simp only [Real.logb]
    field_simp
    ring
  rw [hEq, div_le_one h2]
  exact hE

/-- Entropy of a binary list never exceeds `1`. -/
lemma calculate_entropy_le_one {s : List ℤ} (hb : ∀ x ∈ s, x = 0 ∨ x = 1) :
    calculate_entropy s ≤ 1 := by
  by_cases hne : s = []
  · subst hne
    unfold calculate_entropy
    norm_num
  by_cases h0 : s.count 0 = 0
  · have hall : ∀ x ∈ s, x = (1 : ℤ) := by
      intro x hx
      rcases hb x hx with rfl | rfl
      · exact absurd (List.count_pos_iff.mpr hx) (by omega)
      · rfl
    rw [calculate_entropy_const hne hall]
    norm_num
  by_cases h1 : s.count 1 = 0
  · have hall : ∀ x ∈ s, x = (0 : ℤ) := by
      intro x hx
      rcases hb x hx with rfl | rfl
      · rfl
      · exact absurd (List.count_pos_iff.mpr hx) (by omega)
    rw [calculate_entropy_const hne hall]
    norm_num
  · have hlen : s.length ≠ 0 := by simpa [List.length_eq_zero] using hne
    have hsum : s.count 0 + s.count 1 = s.length := count_zero_add_count_one hb
    have hts : s.toFinset = {0, 1} :=
      toFinset_binary hb (List.count_pos_iff.mp (by omega))
        (List.count_pos_iff.mp (by omega))
    unfold calculate_entropy
    rw [if_neg hlen, hts, Finset.sum_pair (by decide : (0 : ℤ) ≠ 1)]
    have hlr : (0 : ℝ) < (s.length : ℝ) := by
      exact_mod_cast (by omega : 0 < s.length)
    have hcast : (s.count 0 : ℝ) + (s.count 1 : ℝ) = (s.length : ℝ) := by
      exact_mod_cast hsum
    have hq : (s.count 1 : ℝ) / (s.length : ℝ)
        = 1 - (s.count 0 : ℝ) / (s.length : ℝ) := by
      field_simp
      linarith
    rw [hq]
    exact logb_pair_le_one _

/-- Bias always lies in `[0, 1/2]`, for any list. -/
lemma calculate_collapse_bias_bounds (s : List ℤ) :
    0 ≤ calculate_collapse_bias s ∧ calculate_collapse_bias s ≤ 0.5 := by
  unfold calculate_collapse_bias
  split_ifs with h
  · norm_num
  · refine ⟨abs_nonneg _, ?_⟩
    have hlr : (0 : ℚ) < (s.length : ℚ) := by
      exact_mod_cast (by omega : 0 < s.length)
    have hr0 : 0 ≤ (s.count 1 : ℚ) / (s.length : ℚ) := by positivity
    have hr1 : (s.count 1 : ℚ) / (s.length : ℚ) ≤ 1 := by
      rw [div_le_one hlr]
      exact_mod_cast List.count_le_length 1 s
    rw [abs_le]
    constructor <;> [norm_num; skip] <;> norm_num <;> linarith

/-! ## Lemmas about the `analyze` pipeline -/

/-- Every generated outcome is `0` or `1`. -/
lemma gen_results_binary (n : ℕ) (noise : ℚ) (g : RandState) :
    ∀ x ∈ (gen_results n noise g).1, x = 0 ∨ x = 1 := by
  induction n generalizing g with
  | zero =>
    intro x hx
    simp [gen_results] at hx
  | succ n ih =>
    intro x hx
    simp only [gen_results] at hx
    rcases List.mem_cons.mp hx with h | h
    · subst h
      unfold qgs_step quantum_gate_simulation
      dsimp only
      split_ifs <;> simp
    · exact ih _ x h

/-- The outcome sequence a run generates once validation has passed. -/
noncomputable def runOutcomes (mt : ℤ → RandState) (g : RandState)
    (cfg : RunConfig) : List ℤ :=
  (gen_results cfg.simulations.toNat cfg.noise (seededState mt g cfg.seed)).1

/-- Every element of the generated run sequence is `0` or `1`. -/
lemma runOutcomes_binary (mt : ℤ → RandState) (g : RandState)
    (cfg : RunConfig) : ∀ x ∈ runOutcomes mt g cfg, x = 0 ∨ x = 1 :=
  gen_results_binary _ _ _

/-- Evaluation of `analyze` when `simulations ≤ 0`. -/
lemma analyze_invalid_sim (mt : ℤ → RandState) (wk : Bool) (g : RandState)
    (cfg : RunConfig) (h : cfg.simulations ≤ 0) :
    analyze mt wk g cfg =
      { events := [.errorPrinted "❌ Simulations must be > 0", .exited 1],
        stats := none,
        finalRand := seededState mt g cfg.seed,
        exitCode := 1 } := by
  unfold analyze
  rw [if_pos h]

/-- Evaluation of `analyze` when `simulations > 0` but the noise is out of
range. -/
lemma analyze_invalid_noise (mt : ℤ → RandState) (wk : Bool) (g : RandState)
    (cfg : RunConfig) (hsim : 0 < cfg.simulations)
    (hn : ¬ (0 ≤ cfg.noise ∧ cfg.noise ≤ 1)) :
    analyze mt wk g cfg =
      { events := [.errorPrinted "❌ Noise must be between 0.0 and 1.0", .exited 1],
        stats := none,
        finalRand := seededState mt g cfg.seed,
        exitCode := 1 } := by
  unfold analyze
  rw [if_neg (not_le.mpr hsim), if_pos hn]

/-- On a valid configuration, `analyze` records the generated binary
sequence together with its entropy, bias and classification. -/
lemma analyze_valid_stats (mt : ℤ → RandState) (wk : Bool) (g : RandState)
    (cfg : RunConfig) (hsim : 0 < cfg.simulations)
    (hn0 : 0 ≤ cfg.noise) (hn1 : cfg.noise ≤ 1) :
    (analyze mt wk g cfg).stats = some
      { outcomes := runOutcomes mt g cfg,
        entropy := calculate_entropy (runOutcomes mt g cfg),
        bias := calculate_collapse_bias (runOutcomes mt g cfg),
        status := classify (calculate_entropy (runOutcomes mt g cfg)) } := by
  unfold analyze runOutcomes
  rw [if_neg (not_le.mpr hsim), if_neg (not_not_intro ⟨hn0, hn1⟩)]
  cases cfg.output with
  | none => rfl
  | some path =>
    cases wk <;> rfl

/-! ## Claim C2 -/

/-- C2: a nonempty binary sequence with equal counts of `0` and `1` has
entropy exactly `1` and bias exactly `0`; a nonempty all-`0` or all-`1`
sequence has entropy exactly `0` and bias exactly `0.5`. -/
theorem C2_exact_metric_values (s : List ℤ) (hne : s ≠ [])
    (hb : ∀ x ∈ s, x = 0 ∨ x = 1) :
    (s.count 0 = s.count 1 →
      calculate_entropy s = 1 ∧ calculate_collapse_bias s = 0) ∧
    ((∀ x ∈ s, x = 0) →
      calculate_entropy s = 0 ∧ calculate_collapse_bias s = 0.5) ∧
    ((∀ x ∈ s, x = 1) →
      calculate_entropy s = 0 ∧ calculate_collapse_bias s = 0.5) := by
  refine ⟨fun hcc => ⟨?_, ?_⟩, fun hall => ⟨?_, ?_⟩, fun hall => ⟨?_, ?_⟩⟩
  · exact calculate_entropy_balanced hne hb hcc
  · exact calculate_collapse_bias_balanced hne hb hcc
  · exact calculate_entropy_const hne hall
  · exact calculate_collapse_bias_all_zero hne hall
  · exact calculate_entropy_const hne hall
  · exact calculate_collapse_bias_all_one hne hall

/-- Witness for C2 on `[0,1]`, `[0,0]` and `[1,1]`. -/
theorem C2_witness :
    (calculate_entropy [(0 : ℤ), 1] = 1 ∧
      calculate_collapse_bias [(0 : ℤ), 1] = 0) ∧
    (calculate_entropy [(0 : ℤ), 0] = 0 ∧
      calculate_collapse_bias [(0 : ℤ), 0] = 0.5) ∧
    (calculate_entropy [(1 : ℤ), 1] = 0 ∧
      calculate_collapse_bias [(1 : ℤ), 1] = 0.5) :=
  ⟨(C2_exact_metric_values [0, 1] (by decide) (by decide)).1 (by decide),
   (C2_exact_metric_values [0, 0] (by decide) (by decide)).2.1 (by decide),
   (C2_exact_metric_values [1, 1] (by decide) (by decide)).2.2 (by decide)⟩

/-! ## Claim C8 -/

/-- C8: entropy and bias are invariant under permutation of the outcome
sequence, since both depend only on element counts and the length. -/
theorem C8_metrics_perm_invariant (s t : List ℤ) (hp : s.Perm t) :
    calculate_entropy s = calculate_entropy t ∧
    calculate_collapse_bias s = calculate_collapse_bias t := by
  have hlen := hp.length_eq
  constructor
  · unfold calculate_entropy
    rw [hlen, List.toFinset_eq_of_perm s t hp]
    by_cases h : t.length = 0
    · simp [h]
    · rw [if_neg h, if_neg h]
      refine Finset.sum_congr rfl fun v _ => ?_
      rw [hp.count_eq]
  · unfold calculate_collapse_bias
    rw [hlen, hp.count_eq]

/-- Witness for C8 on the permuted pair `[0,1,1]` and `[1,1,0]`. -/
theorem C8_witness :
    calculate_entropy [(0 : ℤ), 1, 1] = calculate_entropy [(1 : ℤ), 1, 0] ∧
    calculate_collapse_bias [(0 : ℤ), 1, 1]
      = calculate_collapse_bias [(1 : ℤ), 1, 0] :=
  C8_metrics_perm_invariant _ _ (by decide)

/-! ## Claim C3 -/

/-- C3: classification is a function of entropy alone; `entropy > 0.8` is
CRITICAL, else `entropy > 0.4` is WARNING, else STABLE, with the documented
messages; the boundary values `0.4` and `0.8` fall into the lower tier. -/
theorem C3_classification_thresholds (e : ℝ) :
    (e > 0.8 → classify e = .CRITICAL) ∧
    (e ≤ 0.8 → e > 0.4 → classify e = .WARNING) ∧
    (e ≤ 0.4 → classify e = .STABLE) ∧
    classify 0.4 = .STABLE ∧
    classify 0.8 = .WARNING ∧
    status_message .CRITICAL = "CRITICAL: High structural fragility detected." ∧
    status_message .WARNING = "WARNING: Moderate drift detected." ∧
    status_message .STABLE = "STABLE: System appears robust." := by
  have hcrit : ∀ x : ℝ, x > 0.8 → classify x = .CRITICAL := by
    intro x h
    unfold classify
    rw [if_pos h]
  have hwarn : ∀ x : ℝ, x ≤ 0.8 → x > 0.4 → classify x = .WARNING := by
    intro x h1 h2
    unfold classify
    rw [if_neg (not_lt.mpr h1), if_pos h2]
  have hstab : ∀ x : ℝ, x ≤ 0.4 → classify x = .STABLE := by
    intro x h
    unfold classify
    rw [if_neg (not_lt.mpr (h.trans (by norm_num))), if_neg (not_lt.mpr h)]
  exact ⟨hcrit e, hwarn e, hstab e, hstab 0.4 le_rfl,
    hwarn 0.8 le_rfl (by norm_num), rfl, rfl, rfl⟩

/-- Witness for C3 at `1`, `0.6`, `0.2` and the boundaries. -/
theorem C3_witness :
    classify 1 = .CRITICAL ∧ classify 0.6 = .WARNING ∧
    classify 0.2 = .STABLE ∧ classify 0.4 = .STABLE ∧
    classify 0.8 = .WARNING :=
  ⟨(C3_classification_thresholds 1).1 (by norm_num),
   (C3_classification_thresholds 0.6).2.1 (by norm_num) (by norm_num),
   (C3_classification_thresholds 0.2).2.2.1 (by norm_num),
   (C3_classification_thresholds 0.4).2.2.2.1,
   (C3_classification_thresholds 0.8).2.2.2.2.1⟩

/-! ## Claim C4 -/

/-- C4: for a nonempty binary sequence the entropy lies in `[0, 1]` and the
bias lies in `[0, 0.5]`; hence every validated run (noise in `[0,1]`,
positive trial count) reports an entropy in `[0, 1]` and a bias in
`[0, 0.5]`. -/
theorem C4_metric_bounds (s : List ℤ) (hne : s ≠ [])
    (hb : ∀ x ∈ s, x = 0 ∨ x = 1)
    (mt : ℤ → RandState) (wk : Bool) (g : RandState) (cfg : RunConfig)
    (hsim : 0 < cfg.simulations) (hn0 : 0 ≤ cfg.noise) (hn1 : cfg.noise ≤ 1) :
    (0 ≤ calculate_entropy s ∧ calculate_entropy s ≤ 1 ∧
      0 ≤ calculate_collapse_bias s ∧ calculate_collapse_bias s ≤ 0.5) ∧
    ∃ rs : RunStats, (analyze mt wk g cfg).stats = some rs ∧
      0 ≤ rs.entropy ∧ rs.entropy ≤ 1 ∧ 0 ≤ rs.bias ∧ rs.bias ≤ 0.5 := by
  refine ⟨⟨calculate_entropy_nonneg s, calculate_entropy_le_one hb,
    (calculate_collapse_bias_bounds s).1, (calculate_collapse_bias_bounds s).2⟩,
    ⟨_, analyze_valid_stats mt wk g cfg hsim hn0 hn1, ?_, ?_, ?_, ?_⟩⟩
  · exact calculate_entropy_nonneg (runOutcomes mt g cfg)
  · exact calculate_entropy_le_one (runOutcomes_binary mt g cfg)
  · exact (calculate_collapse_bias_bounds (runOutcomes mt g cfg)).1
  · exact (calculate_collapse_bias_bounds (runOutcomes mt g cfg)).2

/-- Witness for C4 on `[0,1,1]` and a concrete run with 3 trials at noise
`1/2`. -/
theorem C4_witness :
    (0 ≤ calculate_entropy [(0 : ℤ), 1, 1] ∧
      calculate_entropy [(0 : ℤ), 1, 1] ≤ 1 ∧
      0 ≤ calculate_collapse_bias [(0 : ℤ), 1, 1] ∧
      calculate_collapse_bias [(0 : ℤ), 1, 1] ≤ 0.5) ∧
    ∃ rs : RunStats,
      (analyze (fun _ => fun _ => 0) true (fun _ => 0)
        ⟨3, 1/2, none, none, true, false⟩).stats = some rs ∧
      0 ≤ rs.entropy ∧ rs.entropy ≤ 1 ∧ 0 ≤ rs.bias ∧ rs.bias ≤ 0.5 :=
  C4_metric_bounds [0, 1, 1] (by decide) (by decide)
    (fun _ => fun _ => 0) true (fun _ => 0) ⟨3, 1/2, none, none, true, false⟩
    (by norm_num) (by norm_num) (by norm_num)

/-! ## Claim C5 (corrected) -/

/-- Counterexample for C5 as stated: at `simulations = 5`, `noise = 2` the
run aborts, but the printed message is
`"❌ Noise must be between 0.0 and 1.0"`, not the claimed
`"noise out of range"`. -/
theorem C5_counterexample :
    (analyze (fun _ => fun _ => 0) true (fun _ => 0)
        ⟨5, 2, none, none, true, false⟩).events
      = [.errorPrinted "❌ Noise must be between 0.0 and 1.0", .exited 1] ∧
    "❌ Noise must be between 0.0 and 1.0" ≠ "noise out of range" := by
  constructor
  · rw [analyze_invalid_noise _ _ _ _ (by norm_num) (by norm_num)]
  · decide

/-- C5 amended: validation rejects invalid configs before any outcome
generation, checking `simulations > 0` first and then the noise range, but
the messages are `"❌ Simulations must be > 0"` and
`"❌ Noise must be between 0.0 and 1.0"`; in both cases the run exits with
code 1 and no report or outcome sequence is produced. -/
theorem C5_validation_order_and_messages (mt : ℤ → RandState) (wk : Bool)
    (g : RandState) (cfg : RunConfig) :
    (cfg.simulations ≤ 0 →
      (analyze mt wk g cfg).events
        = [.errorPrinted "❌ Simulations must be > 0", .exited 1] ∧
      (analyze mt wk g cfg).stats = none ∧
      (analyze mt wk g cfg).exitCode = 1) ∧
    (0 < cfg.simulations → ¬ (0 ≤ cfg.noise ∧ cfg.noise ≤ 1) →
      (analyze mt wk g cfg).events
        = [.errorPrinted "❌ Noise must be between 0.0 and 1.0", .exited 1] ∧
      (analyze mt wk g cfg).stats = none ∧
      (analyze mt wk g cfg).exitCode = 1) := by
  constructor
  · intro h
    rw [analyze_invalid_sim mt wk g cfg h]
    exact ⟨rfl, rfl, rfl⟩
  · intro hsim hn
    rw [analyze_invalid_noise mt wk g cfg hsim hn]
    exact ⟨rfl, rfl, rfl⟩

/-- Witness for the amended C5 at `simulations = 0` and at `noise = 2`. -/
theorem C5_witness :
    ((analyze (fun _ => fun _ => 0) true (fun _ => 0)
        ⟨0, 1/2, none, none, true, false⟩).events
      = [.errorPrinted "❌ Simulations must be > 0", .exited 1] ∧
     (analyze (fun _ => fun _ => 0) true (fun _ => 0)
        ⟨0, 1/2, none, none, true, false⟩).stats = none ∧
     (analyze (fun _ => fun _ => 0) true (fun _ => 0)
        ⟨0, 1/2, none, none, true, false⟩).exitCode = 1) ∧
    ((analyze (fun _ => fun _ => 0) true (fun _ => 0)
        ⟨7, 2, none, none, true, false⟩).events
      = [.errorPrinted "❌ Noise must be between 0.0 and 1.0", .exited 1] ∧
     (analyze (fun _ => fun _ => 0) true (fun _ => 0)
        ⟨7, 2, none, none, true, false⟩).stats = none ∧
     (analyze (fun _ => fun _ => 0) true (fun _ => 0)
        ⟨7, 2, none, none, true, false⟩).exitCode = 1) :=
  ⟨(C5_validation_order_and_messages _ _ _ _).1 (by norm_num),
   (C5_validation_order_and_messages _ _ _ _).2 (by norm_num) (by norm_num)⟩

/-! ## Claim C6 -/

/-- C6: with a supplied seed the whole result of a run — events, outcome
sequence, entropy, bias, status, final random state and exit code — is a
function of `(seed, simulations, noise, output, writeOk)` alone: it does
not depend on the ambient state of the random source, so two executions
with identical inputs produce identical results. -/
theorem C6_seeded_run_deterministic (mt : ℤ → RandState) (wk : Bool)
    (g1 g2 : RandState) (cfg : RunConfig) (s : ℤ) (hs : cfg.seed = some s) :
    analyze mt wk g1 cfg = analyze mt wk g2 cfg := by
  unfold analyze
  rw [hs]
  rfl

/-- Witness for C6 with seed `99` and two different ambient states. -/
theorem C6_witness :
    analyze (fun _ => fun _ => 0) true (fun _ => 0)
        ⟨10, 1/2, some 99, none, true, false⟩
      = analyze (fun _ => fun _ => 0) true (fun _ => 1)
        ⟨10, 1/2, some 99, none, true, false⟩ :=
  C6_seeded_run_deterministic (fun _ => fun _ => 0) true
    (fun _ => 0) (fun _ => 1) ⟨10, 1/2, some 99, none, true, false⟩ 99 rfl

/-! ## Claim C7 (corrected) -/

/-- Counterexample for C7 as stated: on a validation-failing run with
`simulations = 0` and seed `42`, no outcome is generated, yet the
process-wide random source has been re-seeded (its state changed from the
constant-`1` stream to the constant-`0` stream supplied by the seeded
generator), because `random.seed` runs before validation. -/
theorem C7_counterexample :
    (analyze (fun _ => fun _ => 0) true (fun _ => 1)
        ⟨0, 1/2, some 42, none, true, false⟩).stats = none ∧
    (analyze (fun _ => fun _ => 0) true (fun _ => 1)
        ⟨0, 1/2, some 42, none, true, false⟩).exitCode = 1 ∧
    (analyze (fun _ => fun _ => 0) true (fun _ => 1)
        ⟨0, 1/2, some 42, none, true, false⟩).finalRand
      ≠ (fun _ => 1) := by
  rw [analyze_invalid_sim _ _ _ _ (by norm_num)]
  refine ⟨rfl, rfl, fun h => ?_⟩
  have h0 := congrFun h 0
  norm_num [seededState] at h0

/-- C7 amended: when a run fails validation the error is surfaced
immediately, no outcome is generated and no report is written; the
process-wide random source is untouched when no seed is supplied, but when
a seed is supplied it has already been re-seeded before validation. -/
theorem C7_fail_fast_state (mt : ℤ → RandState) (wk : Bool)
    (g : RandState) (cfg : RunConfig)
    (hinv : cfg.simulations ≤ 0 ∨ ¬ (0 ≤ cfg.noise ∧ cfg.noise ≤ 1)) :
    (analyze mt wk g cfg).stats = none ∧
    (∀ data, Event.reportWritten data ∉ (analyze mt wk g cfg).events) ∧
    (analyze mt wk g cfg).exitCode = 1 ∧
    (analyze mt wk g cfg).finalRand = seededState mt g cfg.seed ∧
    (cfg.seed = none → (analyze mt wk g cfg).finalRand = g) := by
  by_cases hsim : cfg.simulations ≤ 0
  · rw [analyze_invalid_sim mt wk g cfg hsim]
    refine ⟨rfl, fun data => by simp, rfl, rfl, fun hn => by rw [hn]; rfl⟩
  · have hn : ¬ (0 ≤ cfg.noise ∧ cfg.noise ≤ 1) := by
      rcases hinv with h | h
      · exact absurd h hsim
      · exact h
    rw [analyze_invalid_noise mt wk g cfg (by omega) hn]
    refine ⟨rfl, fun data => by simp, rfl, rfl, fun hs => by rw [hs]; rfl⟩

/-- Witness for the amended C7 at `simulations = 0` without a seed. -/
theorem C7_witness :
    (analyze (fun _ => fun _ => 0) true (fun _ => 1)
        ⟨0, 1/2, none, none, true, false⟩).stats = none ∧
    (∀ data, Event.reportWritten data ∉
      (analyze (fun _ => fun _ => 0) true (fun _ => 1)
        ⟨0, 1/2, none, none, true, false⟩).events) ∧
    (analyze (fun _ => fun _ => 0) true (fun _ => 1)
        ⟨0, 1/2, none, none, true, false⟩).exitCode = 1 ∧
    (analyze (fun _ => fun _ => 0) true (fun _ => 1)
        ⟨0, 1/2, none, none, true, false⟩).finalRand
      = seededState (fun _ => fun _ => 0) (fun _ => 1) none ∧
    ((none : Option ℤ) = none →
      (analyze (fun _ => fun _ => 0) true (fun _ => 1)
        ⟨0, 1/2, none, none, true, false⟩).finalRand = (fun _ => 1)) :=
  C7_fail_fast_state (fun _ => fun _ => 0) true (fun _ => 1)
    ⟨0, 1/2, none, none, true, false⟩ (Or.inl (by norm_num))

/-! ## Claim C10 -/

/-- C10: on a validated run classified CRITICAL with an output path whose
write succeeds, the JSON report is written — and carries the CRITICAL
status string — before the process exits with status 1: the event trace is
exactly the write followed by the exit. -/
theorem C10_report_written_before_critical_exit
    (mt : ℤ → RandState) (g : RandState) (cfg : RunConfig) (path : String)
    (hsim : 0 < cfg.simulations) (hn0 : 0 ≤ cfg.noise) (hn1 : cfg.noise ≤ 1)
    (hout : cfg.output = some path)
    (rs : RunStats) (hrs : (analyze mt true g cfg).stats = some rs)
    (hcrit : rs.status = .CRITICAL) :
    ∃ data : ReportJson,
      (analyze mt true g cfg).events = [.reportWritten data, .exited 1] ∧
      data.status = "CRITICAL: High structural fragility detected." ∧
      (analyze mt true g cfg).exitCode = 1 := by
  have key := analyze_valid_stats mt true g cfg hsim hn0 hn1
  rw [hrs] at key
  have hrs2 : rs = ⟨runOutcomes mt g cfg,
      calculate_entropy (runOutcomes mt g cfg),
      calculate_collapse_bias (runOutcomes mt g cfg),
      classify (calculate_entropy (runOutcomes mt g cfg))⟩ :=
    Option.some_injective _ key
  have hclass : classify (calculate_entropy (runOutcomes mt g cfg))
      = .CRITICAL := by
    have h3 : rs.status = classify (calculate_entropy (runOutcomes mt g cfg)) :=
      congrArg RunStats.status hrs2
    rw [h3] at hcrit
    exact hcrit
  unfold analyze
  rw [if_neg (not_le.mpr hsim), if_neg (not_not_intro ⟨hn0, hn1⟩), hout]
  unfold runOutcomes at hclass
  simp only [hclass, status_message]
  exact ⟨_, rfl, rfl, rfl⟩

/-- Concrete run for the C10 witness: 2 trials at noise `0` with draws
`0` then `1` produce the outcome sequence `[1, 0]`. -/
lemma c10_run_outcomes :
    runOutcomes (fun _ => fun n => if n = 0 then 0 else 1) (fun _ => 0)
      ⟨2, 0, some 5, some "report.json", true, false⟩ = [1, 0] := by
  unfold runOutcomes seededState
  simp only [gen_results, qgs_step, draw, quantum_gate_simulation,
    shifted_probability]
  norm_num

/-- The concrete run of the C10 witness is classified CRITICAL: its outcome
sequence is balanced, so its entropy is exactly `1 > 0.8`. -/
lemma c10_run_critical :
    classify (calculate_entropy (runOutcomes
      (fun _ => fun n => if n = 0 then 0 else 1) (fun _ => 0)
      ⟨2, 0, some 5, some "report.json", true, false⟩)) = .CRITICAL := by
  rw [c10_run_outcomes,
    calculate_entropy_balanced (by decide) (by decide) (by decide)]
  unfold classify
  rw [if_pos (by norm_num : (1 : ℝ) > 0.8)]

/-- Witness for C10 on the concrete CRITICAL run with an output path. -/
theorem C10_witness :
    ∃ data : ReportJson,
      (analyze (fun _ => fun n => if n = 0 then 0 else 1) true (fun _ => 0)
        ⟨2, 0, some 5, some "report.json", true, false⟩).events
        = [.reportWritten data, .exited 1] ∧
      data.status = "CRITICAL: High structural fragility detected." ∧
      (analyze (fun _ => fun n => if n = 0 then 0 else 1) true (fun _ => 0)
        ⟨2, 0, some 5, some "report.json", true, false⟩).exitCode = 1 :=
  C10_report_written_before_critical_exit
    (fun _ => fun n => if n = 0 then 0 else 1) (fun _ => 0)
    ⟨2, 0, some 5, some "report.json", true, false⟩ "report.json"
    (by norm_num) (by norm_num) (by norm_num) rfl _
    (analyze_valid_stats _ true _ _ (by norm_num) (by norm_num) (by norm_num))
    c10_run_critical

end QDrift
